import Mathlib

/-!
Verification of the zones service of the go-nsone-api repository
(src/rest/zone.go): the pagination walker, the CRUD dispatcher and the
error classifier, embedded shallowly in Lean.

The transport collaborator (the rest client with its NewRequest and Do
methods, the structured *Error type, and the Link-header parser) lives
outside src/rest/zone.go, so it is modelled from the spec as an abstract
interface: a request builder that may fail, and an executor that decodes
a response body into a destination and returns response metadata exposing
a continuation pointer.
-/

/-- Record entries are opaque to this core: they are only the unit of
accumulation during pagination. We model a record by an identifier. -/
abbrev Record := Nat

/-- Modelled from the spec: a dns.Zone (the dns model package is not part
of src/). A named zone with a collection of records plus zone-level
configuration fields; `ttl` stands for the non-record configuration
fields. -/
structure Zone where
  zone : String
  records : List Record
  ttl : Nat
deriving DecidableEq, Repr

/-- Modelled from the spec: an http.Response as seen by this core. The
only metadata the zones service reads is the continuation pointer
derived from the Link header via ParseLink(...).Next(); `linkNext` is
that pointer ("" means no more data). `rid` distinguishes response
objects. -/
structure Response where
  linkNext : String
  rid : Nat
deriving DecidableEq, Repr

/-- Modelled from the spec: an error value produced by the transport and
decoding collaborator, or one of the distinguished sentinel values the
zones service itself exposes. A `structured` error carries a server-side
message (the *Error type of the rest client); a `transport` error is an
opaque transport or decoding failure; a `sentinel` value models an
errors.New value, identity-comparable and distinct from every structured
error even when the message strings coincide. -/
inductive RestErr where
  | structured (message : String)
  | transport (code : Nat)
  | sentinel (message : String)
deriving DecidableEq, Repr

/-- ErrZoneExists bundles the PUT create error (errors.New in zone.go). -/
def ErrZoneExists : RestErr := RestErr.sentinel "zone already exists"

/-- ErrZoneMissing bundles the GET/POST/DELETE error (errors.New in zone.go). -/
def ErrZoneMissing : RestErr := RestErr.sentinel "zone does not exist"

/-- Modelled from the spec: a request as built by the client's request
builder — a method, a path or absolute URI, and an optional zone body. -/
structure Request where
  method : String
  uri : String
  body : Option Zone
deriving DecidableEq, Repr

/-- Modelled from the spec: the outcome of the executor Do on a request
whose response body decodes into α. On success it yields the decoded
value and the response metadata; on failure it yields the error together
with the response object, which may itself be absent. -/
inductive DoRes (α : Type) where
  | ok (val : α) (resp : Response)
  | fail (resp : Option Response) (e : RestErr)
deriving DecidableEq, Repr

/-- Modelled from the spec: the client collaborator. `FollowPagination`
is the configuration flag read at call time. `newRequestErr` is the
request builder's failure behaviour (none means construction succeeds
and yields the request itself). The three Do fields are the executor at
each of the three decode destinations zone.go uses: a zone list, a
single zone, and no destination. -/
structure Client where
  FollowPagination : Bool
  newRequestErr : Request → Option RestErr
  doZoneList : Request → DoRes (List Zone)
  doZone : Request → DoRes Zone
  doEmpty : Request → DoRes Unit

/-- Embeds nextZones of src/rest/zone.go: build a GET request at `uri`,
execute it decoding a zone list, and append the page's zones to the
accumulator; any failure is returned with no response object. -/
def nextZones (c : Client) (zl : List Zone) (uri : String) :
    Except RestErr (List Zone × Response) :=
  match c.newRequestErr ⟨"GET", uri, none⟩ with
  | some e => Except.error e
  | none =>
    match c.doZoneList ⟨"GET", uri, none⟩ with
    | DoRes.fail _ e => Except.error e
    | DoRes.ok tmpZl resp => Except.ok (zl ++ tmpZl, resp)

/-- Embeds nextRecords of src/rest/zone.go: build a GET request at `uri`,
execute it decoding a single zone, and append that page's records to the
accumulated zone's records, leaving its other fields untouched. -/
def nextRecords (c : Client) (z : Zone) (uri : String) :
    Except RestErr (Zone × Response) :=
  match c.newRequestErr ⟨"GET", uri, none⟩ with
  | some e => Except.error e
  | none =>
    match c.doZone ⟨"GET", uri, none⟩ with
    | DoRes.fail _ e => Except.error e
    | DoRes.ok tmpZone resp =>
      Except.ok ({ z with records := z.records ++ tmpZone.records }, resp)

/-- The pagination loop of List: while the continuation pointer is
nonempty, fetch the next page with nextZones and read the next pointer
from the new response. `fuel` bounds the number of iterations; the
result is none when the bound is hit (the Go loop would still be
running), some (ok zl) on normal termination, and some (error e) when a
follow-up fetch fails. -/
def listWalk (c : Client) (fuel : Nat) (zl : List Zone) (uri : String) :
    Option (Except RestErr (List Zone)) :=
  if uri = "" then some (Except.ok zl)
  else
    match fuel with
    | 0 => none
    | f + 1 =>
      match nextZones c zl uri with
      | Except.error e => some (Except.error e)
      | Except.ok (zl2, nresp) => listWalk c f zl2 nresp.linkNext

/-- The pagination loop of Get, accumulating records into a single zone
via nextRecords; same fuel convention as listWalk. -/
def recordsWalk (c : Client) (fuel : Nat) (z : Zone) (uri : String) :
    Option (Except RestErr Zone) :=
  if uri = "" then some (Except.ok z)
  else
    match fuel with
    | 0 => none
    | f + 1 =>
      match nextRecords c z uri with
      | Except.error e => some (Except.error e)
      | Except.ok (z2, nresp) => recordsWalk c f z2 nresp.linkNext

namespace ZonesService

/-- Embeds List of src/rest/zone.go. The result mirrors the Go triple
([]*dns.Zone, *http.Response, error) as three Option components; the
outer Option is none only when the fuel bound on the pagination loop is
hit. Note the Go code never reassigns `resp` inside the loop: the
response returned is always the first page's. -/
def List (c : Client) (fuel : Nat) :
    Option (Option (List Zone) × Option Response × Option RestErr) :=
  match c.newRequestErr ⟨"GET", "zones", none⟩ with
  | some e => some (none, none, some e)
  | none =>
    match c.doZoneList ⟨"GET", "zones", none⟩ with
    | DoRes.fail ropt e => some (none, ropt, some e)
    | DoRes.ok zl resp =>
      if c.FollowPagination then
        match listWalk c fuel zl resp.linkNext with
        | none => none
        | some (Except.error e) => some (none, some resp, some e)
        | some (Except.ok zl2) => some (some zl2, some resp, none)
      else
        some (some zl, some resp, none)

/-- Embeds Get of src/rest/zone.go: fetch zones/{name}; on a structured
"zone not found" failure return the ErrZoneMissing sentinel with the
failed call's response; on success optionally walk the record pages. As
in List, the response returned is always the first page's. -/
def Get (c : Client) (fuel : Nat) (zone : String) :
    Option (Option Zone × Option Response × Option RestErr) :=
  match c.newRequestErr ⟨"GET", "zones/" ++ zone, none⟩ with
  | some e => some (none, none, some e)
  | none =>
    match c.doZone ⟨"GET", "zones/" ++ zone, none⟩ with
    | DoRes.fail ropt e =>
      match e with
      | RestErr.structured msg =>
        if msg = "zone not found" then some (none, ropt, some ErrZoneMissing)
        else some (none, ropt, some (RestErr.structured msg))
      | _ => some (none, ropt, some e)
    | DoRes.ok z resp =>
      if c.FollowPagination then
        match recordsWalk c fuel z resp.linkNext with
        | none => none
        | some (Except.error e) => some (none, some resp, some e)
        | some (Except.ok z2) => some (some z2, some resp, none)
      else
        some (some z, some resp, none)

/-- Embeds Create of src/rest/zone.go: PUT the zone to zones/{name}; a
structured "zone already exists" failure becomes the ErrZoneExists
sentinel; every other failure is passed through with its response. -/
def Create (c : Client) (z : Zone) : Option Response × Option RestErr :=
  match c.newRequestErr ⟨"PUT", "zones/" ++ z.zone, some z⟩ with
  | some e => (none, some e)
  | none =>
    match c.doZone ⟨"PUT", "zones/" ++ z.zone, some z⟩ with
    | DoRes.ok _ resp => (some resp, none)
    | DoRes.fail ropt e =>
      match e with
      | RestErr.structured msg =>
        if msg = "zone already exists" then (ropt, some ErrZoneExists)
        else (ropt, some (RestErr.structured msg))
      | _ => (ropt, some e)

/-- Embeds Update of src/rest/zone.go: POST the zone to zones/{name}; a
structured "zone not found" failure becomes the ErrZoneMissing sentinel;
every other failure is passed through with its response. -/
def Update (c : Client) (z : Zone) : Option Response × Option RestErr :=
  match c.newRequestErr ⟨"POST", "zones/" ++ z.zone, some z⟩ with
  | some e => (none, some e)
  | none =>
    match c.doZone ⟨"POST", "zones/" ++ z.zone, some z⟩ with
    | DoRes.ok _ resp => (some resp, none)
    | DoRes.fail ropt e =>
      match e with
      | RestErr.structured msg =>
        if msg = "zone not found" then (ropt, some ErrZoneMissing)
        else (ropt, some (RestErr.structured msg))
      | _ => (ropt, some e)

/-- Embeds Delete of src/rest/zone.go: DELETE zones/{name} with no body
and no decode destination; a structured "zone not found" failure becomes
the ErrZoneMissing sentinel; every other failure is passed through. -/
def Delete (c : Client) (zone : String) : Option Response × Option RestErr :=
  match c.newRequestErr ⟨"DELETE", "zones/" ++ zone, none⟩ with
  | some e => (none, some e)
  | none =>
    match c.doEmpty ⟨"DELETE", "zones/" ++ zone, none⟩ with
    | DoRes.ok _ resp => (some resp, none)
    | DoRes.fail ropt e =>
      match e with
      | RestErr.structured msg =>
        if msg = "zone not found" then (ropt, some ErrZoneMissing)
        else (ropt, some (RestErr.structured msg))
      | _ => (ropt, some e)

end ZonesService

/-- One page of a List walk: the zone list decoded from the page body and
the page's response metadata. -/
structure ZPage where
  zones : List Zone
  resp : Response
deriving DecidableEq, Repr

/-- One page of a Get walk: the zone decoded from the page body (only its
records are merged) and the page's response metadata. -/
structure RPage where
  zone : Zone
  resp : Response
deriving DecidableEq, Repr

/-- The client serves, starting from continuation pointer `u`, exactly
the zone-list pages `ps` in order, each page's response linking to the
next fetch, the last page linking to "" (or `u` itself already empty for
no follow-up pages). -/
def ServesZonesFrom (c : Client) : String → List ZPage → Prop
  | u, [] => u = ""
  | u, pg :: rest =>
      u ≠ "" ∧ c.newRequestErr ⟨"GET", u, none⟩ = none ∧
      c.doZoneList ⟨"GET", u, none⟩ = DoRes.ok pg.zones pg.resp ∧
      ServesZonesFrom c pg.resp.linkNext rest

/-- A zone-list page fetch at `u` fails: either request construction
fails with `e`, or construction succeeds and the executor fails with
`e`. -/
def ZoneFetchFails (c : Client) (u : String) (e : RestErr) : Prop :=
  c.newRequestErr ⟨"GET", u, none⟩ = some e ∨
    (c.newRequestErr ⟨"GET", u, none⟩ = none ∧
      ∃ ropt, c.doZoneList ⟨"GET", u, none⟩ = DoRes.fail ropt e)

/-- The client serves, from pointer `u`, the zone-list pages `ps` and
then the fetch of the page after them fails with `e`. -/
def ServesZonesThenFails (c : Client) : String → List ZPage → RestErr → Prop
  | u, [], e => u ≠ "" ∧ ZoneFetchFails c u e
  | u, pg :: rest, e =>
      u ≠ "" ∧ c.newRequestErr ⟨"GET", u, none⟩ = none ∧
      c.doZoneList ⟨"GET", u, none⟩ = DoRes.ok pg.zones pg.resp ∧
      ServesZonesThenFails c pg.resp.linkNext rest e

/-- The client serves, starting from continuation pointer `u`, exactly
the single-zone pages `ps` in order, the last linking to "". -/
def ServesRecordsFrom (c : Client) : String → List RPage → Prop
  | u, [] => u = ""
  | u, pg :: rest =>
      u ≠ "" ∧ c.newRequestErr ⟨"GET", u, none⟩ = none ∧
      c.doZone ⟨"GET", u, none⟩ = DoRes.ok pg.zone pg.resp ∧
      ServesRecordsFrom c pg.resp.linkNext rest

/-- A single-zone page fetch at `u` fails with `e`, at construction or
at execution. -/
def RecordFetchFails (c : Client) (u : String) (e : RestErr) : Prop :=
  c.newRequestErr ⟨"GET", u, none⟩ = some e ∨
    (c.newRequestErr ⟨"GET", u, none⟩ = none ∧
      ∃ ropt, c.doZone ⟨"GET", u, none⟩ = DoRes.fail ropt e)

/-- The client serves, from pointer `u`, the single-zone pages `ps` and
then the fetch after them fails with `e`. -/
def ServesRecordsThenFails (c : Client) : String → List RPage → RestErr → Prop
  | u, [], e => u ≠ "" ∧ RecordFetchFails c u e
  | u, pg :: rest, e =>
      u ≠ "" ∧ c.newRequestErr ⟨"GET", u, none⟩ = none ∧
      c.doZone ⟨"GET", u, none⟩ = DoRes.ok pg.zone pg.resp ∧
      ServesRecordsThenFails c pg.resp.linkNext rest e

/-- The initial List request succeeds and decodes page `pg`. -/
def ListFirstPage (c : Client) (pg : ZPage) : Prop :=
  c.newRequestErr ⟨"GET", "zones", none⟩ = none ∧
  c.doZoneList ⟨"GET", "zones", none⟩ = DoRes.ok pg.zones pg.resp

/-- The initial Get request for zone `zn` succeeds and decodes page `pg`. -/
def GetFirstPage (c : Client) (zn : String) (pg : RPage) : Prop :=
  c.newRequestErr ⟨"GET", "zones/" ++ zn, none⟩ = none ∧
  c.doZone ⟨"GET", "zones/" ++ zn, none⟩ = DoRes.ok pg.zone pg.resp

theorem listWalk_serves (c : Client) (ps : List ZPage) :
    ∀ fuel zl u, ServesZonesFrom c u ps → ps.length ≤ fuel →
      listWalk c fuel zl u =
        some (Except.ok (zl ++ (ps.map ZPage.zones).flatten)) := by
  induction ps with
  | nil =>
    intro fuel zl u hs _
    have hu : u = "" := hs
    subst hu
    rw [listWalk.eq_def]
    simp
  | cons pg rest ih =>
    intro fuel zl u hs hlen
    obtain ⟨hu, hreq, hdo, hrest⟩ := hs
    cases fuel with
    | zero => exact absurd hlen (by simp)
    | succ f =>
      rw [listWalk.eq_def, if_neg hu]
      have hnz : nextZones c zl u = Except.ok (zl ++ pg.zones, pg.resp) := by
        rw [nextZones, hreq, hdo]
      rw [hnz]
      have := ih f (zl ++ pg.zones) pg.resp.linkNext hrest (by
        simpa using Nat.succ_le_succ_iff.mp hlen)
      simpa [List.append_assoc] using this

theorem listWalk_fails (c : Client) (ps : List ZPage) (e : RestErr) :
    ∀ fuel zl u, ServesZonesThenFails c u ps e → ps.length < fuel →
      listWalk c fuel zl u = some (Except.error e) := by
  induction ps with
  | nil =>
    intro fuel zl u hs hlen
    obtain ⟨hu, hfail⟩ := hs
    cases fuel with
    | zero => exact absurd hlen (by simp)
    | succ f =>
      rw [listWalk.eq_def, if_neg hu]
      rcases hfail with hreq | ⟨hreq, ropt, hdo⟩
      · rw [nextZones, hreq]
      · rw [nextZones, hreq, hdo]
  | cons pg rest ih =>
    intro fuel zl u hs hlen
    obtain ⟨hu, hreq, hdo, hrest⟩ := hs
    cases fuel with
    | zero => exact absurd hlen (by simp)
    | succ f =>
      rw [listWalk.eq_def, if_neg hu]
      have hnz : nextZones c zl u = Except.ok (zl ++ pg.zones, pg.resp) := by
        rw [nextZones, hreq, hdo]
      rw [hnz]
      exact ih f (zl ++ pg.zones) pg.resp.linkNext hrest (by
        simpa using Nat.succ_lt_succ_iff.mp hlen)

theorem recordsWalk_serves (c : Client) (ps : List RPage) :
    ∀ fuel z u, ServesRecordsFrom c u ps → ps.length ≤ fuel →
      recordsWalk c fuel z u =
        some (Except.ok { z with
          records := z.records ++ (ps.map (fun pg => pg.zone.records)).flatten }) := by
  induction ps with
  | nil =>
    intro fuel z u hs _
    have hu : u = "" := hs
    subst hu
    rw [recordsWalk.eq_def]
    simp
  | cons pg rest ih =>
    intro fuel z u hs hlen
    obtain ⟨hu, hreq, hdo, hrest⟩ := hs
    cases fuel with
    | zero => exact absurd hlen (by simp)
    | succ f =>
      rw [recordsWalk.eq_def, if_neg hu]
      have hnr : nextRecords c z u =
          Except.ok ({ z with records := z.records ++ pg.zone.records }, pg.resp) := by
        rw [nextRecords, hreq, hdo]
      rw [hnr]
      have := ih f { z with records := z.records ++ pg.zone.records }
        pg.resp.linkNext hrest (by simpa using Nat.succ_le_succ_iff.mp hlen)
      simpa [List.append_assoc] using this

theorem recordsWalk_fails (c : Client) (ps : List RPage) (e : RestErr) :
    ∀ fuel z u, ServesRecordsThenFails c u ps e → ps.length < fuel →
      recordsWalk c fuel z u = some (Except.error e) := by
  induction ps with
  | nil =>
    intro fuel z u hs hlen
    obtain ⟨hu, hfail⟩ := hs
    cases fuel with
    | zero => exact absurd hlen (by simp)
    | succ f =>
      rw [recordsWalk.eq_def, if_neg hu]
      rcases hfail with hreq | ⟨hreq, ropt, hdo⟩
      · rw [nextRecords, hreq]
      · rw [nextRecords, hreq, hdo]
  | cons pg rest ih =>
    intro fuel z u hs hlen
    obtain ⟨hu, hreq, hdo, hrest⟩ := hs
    cases fuel with
    | zero => exact absurd hlen (by simp)
    | succ f =>
      rw [recordsWalk.eq_def, if_neg hu]
      have hnr : nextRecords c z u =
          Except.ok ({ z with records := z.records ++ pg.zone.records }, pg.resp) := by
        rw [nextRecords, hreq, hdo]
      rw [hnr]
      exact ih f { z with records := z.records ++ pg.zone.records }
        pg.resp.linkNext hrest (by simpa using Nat.succ_lt_succ_iff.mp hlen)

/-- Sample zone "a" with one record. -/
def zA : Zone := ⟨"a", [1], 3600⟩

/-- Sample zone "b" with one record. -/
def zB : Zone := ⟨"b", [2], 3600⟩

/-- Sample zone "c" with one record. -/
def zC : Zone := ⟨"c", [3], 7200⟩

/-- First-page response: its Link header points to "page2". -/
def rPage1 : Response := ⟨"page2", 1⟩

/-- Second-page response with no further continuation pointer. -/
def rPage2 : Response := ⟨"", 2⟩

/-- Second-page response that points on to "page3". -/
def rF2 : Response := ⟨"page3", 2⟩

/-- First List page: zones a and b, response rPage1. -/
def zp1 : ZPage := ⟨[zA, zB], rPage1⟩

/-- Second List page: zone c, response rPage2, ending the walk. -/
def zp2 : ZPage := ⟨[zC], rPage2⟩

/-- First Get page for example.com: record 10, response rPage1. -/
def rp1 : RPage := ⟨⟨"example.com", [10], 3600⟩, rPage1⟩

/-- Second Get page: records 11 and 12, different ttl, response rPage2. -/
def rp2 : RPage := ⟨⟨"example.com", [11, 12], 0⟩, rPage2⟩

/-- A client serving a successful two-page List walk (zones, then page2)
and a successful two-page Get walk for example.com; every other request
fails. -/
def cOk : Client where
  FollowPagination := true
  newRequestErr := fun _ => none
  doZoneList := fun req =>
    if req.uri = "zones" then DoRes.ok [zA, zB] rPage1
    else if req.uri = "page2" then DoRes.ok [zC] rPage2
    else DoRes.fail none (RestErr.transport 99)
  doZone := fun req =>
    if req.uri = "zones/example.com" then DoRes.ok rp1.zone rPage1
    else if req.uri = "page2" then DoRes.ok rp2.zone rPage2
    else DoRes.fail none (RestErr.transport 99)
  doEmpty := fun _ => DoRes.fail none (RestErr.transport 99)

/-- The same pages as cOk but with pagination following disabled. -/
def cNoFollow : Client where
  FollowPagination := false
  newRequestErr := fun _ => none
  doZoneList := fun req =>
    if req.uri = "zones" then DoRes.ok [zA, zB] rPage1
    else if req.uri = "page2" then DoRes.ok [zC] rPage2
    else DoRes.fail none (RestErr.transport 99)
  doZone := fun req =>
    if req.uri = "zones/example.com" then DoRes.ok rp1.zone rPage1
    else if req.uri = "page2" then DoRes.ok rp2.zone rPage2
    else DoRes.fail none (RestErr.transport 99)
  doEmpty := fun _ => DoRes.fail none (RestErr.transport 99)

/-- A client whose walks succeed for two pages (responses rPage1 then
rF2, which points to "page3") and then fail with transport error 7 at
"page3". -/
def cFail : Client where
  FollowPagination := true
  newRequestErr := fun _ => none
  doZoneList := fun req =>
    if req.uri = "zones" then DoRes.ok [zA, zB] rPage1
    else if req.uri = "page2" then DoRes.ok [zC] rF2
    else DoRes.fail (some ⟨"", 3⟩) (RestErr.transport 7)
  doZone := fun req =>
    if req.uri = "zones/example.com" then DoRes.ok rp1.zone rPage1
    else if req.uri = "page2" then DoRes.ok rp2.zone rF2
    else DoRes.fail (some ⟨"", 3⟩) (RestErr.transport 7)
  doEmpty := fun _ => DoRes.fail none (RestErr.transport 99)

/-- A client whose every executor call fails with the error `e`, with a
response object present. -/
def cFailWith (e : RestErr) : Client where
  FollowPagination := true
  newRequestErr := fun _ => none
  doZoneList := fun _ => DoRes.fail (some ⟨"", 9⟩) e
  doZone := fun _ => DoRes.fail (some ⟨"", 9⟩) e
  doEmpty := fun _ => DoRes.fail (some ⟨"", 9⟩) e

/-- A client whose request builder always fails with transport error 42. -/
def cBadReq : Client where
  FollowPagination := true
  newRequestErr := fun _ => some (RestErr.transport 42)
  doZoneList := fun _ => DoRes.fail none (RestErr.transport 99)
  doZone := fun _ => DoRes.fail none (RestErr.transport 99)
  doEmpty := fun _ => DoRes.fail none (RestErr.transport 99)

/-- C1: for every multi-page List walk (pagination enabled, N ≥ 1 pages,
every page fetch succeeding), the returned zone list equals the
concatenation of each page's zone lists in fetch order, with no error,
and its length equals the sum of the per-page lengths; order within each
page is preserved, being the concatenation of the page lists
themselves. -/
theorem list_multipage_concat (c : Client) (p1 : ZPage) (rest : List ZPage)
    (fuel : Nat) (hfp : c.FollowPagination = true)
    (h1 : ListFirstPage c p1)
    (hrest : ServesZonesFrom c p1.resp.linkNext rest)
    (hfuel : rest.length ≤ fuel) :
    ZonesService.List c fuel =
      some (some (((p1 :: rest).map ZPage.zones).flatten), some p1.resp, none) ∧
    (((p1 :: rest).map ZPage.zones).flatten).length =
      ((p1 :: rest).map (fun pg => pg.zones.length)).sum := by
  obtain ⟨hreq, hdo⟩ := h1
  have hw := listWalk_serves c rest fuel p1.zones p1.resp.linkNext hrest hfuel
  constructor
  · simp only [ZonesService.List, hreq, hdo, hfp, if_true, hw]
    simp [List.flatten_cons]
  · rw [List.length_flatten, List.map_map]
    rfl

/-- Second List page of the failing walk: zone c, response rF2 pointing
to "page3", where the fetch fails. -/
def zpF2 : ZPage := ⟨[zC], rF2⟩

/-- Second Get page of the failing walk: rp2's zone, response rF2. -/
def rpF2 : RPage := ⟨rp2.zone, rF2⟩

/-- Witness for list_multipage_concat: the concrete two-page walk served
by cOk yields [zA, zB, zC] with no error. -/
theorem list_multipage_concat_witness :
    ZonesService.List cOk 5 =
      some (some ((([zp1, zp2]).map ZPage.zones).flatten), some zp1.resp, none) ∧
    ((([zp1, zp2]).map ZPage.zones).flatten).length =
      (([zp1, zp2]).map (fun pg => pg.zones.length)).sum :=
  list_multipage_concat cOk zp1 [zp2] 5 rfl ⟨rfl, rfl⟩
    ⟨by decide, rfl, rfl, rfl⟩ (by decide)

/-- C2: for every multi-page Get walk (pagination enabled, every page
fetch succeeding), the returned Zone's record collection equals the
concatenation of each page's record collections in fetch order, and
every non-record field of the returned Zone equals the corresponding
field of the first page's zone (the structure-update form of the
conclusion discards the follow-up pages' non-record fields). -/
theorem get_multipage_records (c : Client) (zn : String) (p1 : RPage)
    (rest : List RPage) (fuel : Nat) (hfp : c.FollowPagination = true)
    (h1 : GetFirstPage c zn p1)
    (hrest : ServesRecordsFrom c p1.resp.linkNext rest)
    (hfuel : rest.length ≤ fuel) :
    ZonesService.Get c fuel zn =
      some (some { p1.zone with
          records := ((p1 :: rest).map (fun pg => pg.zone.records)).flatten },
        some p1.resp, none) := by
  obtain ⟨hreq, hdo⟩ := h1
  have hw := recordsWalk_serves c rest fuel p1.zone p1.resp.linkNext hrest hfuel
  simp only [ZonesService.Get, hreq, hdo, hfp, if_true, hw]
  simp [List.flatten_cons]

/-- Witness for get_multipage_records: the concrete two-page Get walk on
cOk for example.com merges records [10] and [11, 12] while keeping the
first page's name and ttl. -/
theorem get_multipage_records_witness :
    ZonesService.Get cOk 5 "example.com" =
      some (some { rp1.zone with
          records := (([rp1, rp2]).map (fun pg => pg.zone.records)).flatten },
        some rp1.resp, none) :=
  get_multipage_records cOk "example.com" rp1 [rp2] 5 rfl ⟨rfl, rfl⟩
    ⟨by decide, rfl, rfl, rfl⟩ (by decide)

/-- C3: for every List walk in which a follow-up page fetch fails (at
request construction or at transport/decoding), List returns a nil zone
list together with that error; no page's data reaches the caller. -/
theorem list_follow_up_failure_discards (c : Client) (p1 : ZPage)
    (rest : List ZPage) (e : RestErr) (fuel : Nat)
    (hfp : c.FollowPagination = true)
    (h1 : ListFirstPage c p1)
    (hfail : ServesZonesThenFails c p1.resp.linkNext rest e)
    (hfuel : rest.length < fuel) :
    ZonesService.List c fuel = some (none, some p1.resp, some e) := by
  obtain ⟨hreq, hdo⟩ := h1
  have hw := listWalk_fails c rest e fuel p1.zones p1.resp.linkNext hfail hfuel
  simp only [ZonesService.List, hreq, hdo, hfp, if_true, hw]

/-- Witness for list_follow_up_failure_discards: on cFail, pages 1 and 2
succeed and page 3 fails with transport error 7; List returns no zones
and that error. -/
theorem list_follow_up_failure_discards_witness :
    ZonesService.List cFail 5 =
      some (none, some zp1.resp, some (RestErr.transport 7)) :=
  list_follow_up_failure_discards cFail zp1 [zpF2] (RestErr.transport 7) 5 rfl
    ⟨rfl, rfl⟩ ⟨by decide, rfl, rfl, by decide, Or.inr ⟨rfl, ⟨some ⟨"", 3⟩, rfl⟩⟩⟩
    (by decide)

/-- C4 counterexample: on cFail the follow-up page 2 (response rF2)
fully succeeded before page 3's fetch failed, yet List returns page 1's
response rPage1, not the last fully-succeeded response rF2. -/
theorem list_failure_last_response_cx :
    ZonesService.List cFail 5 =
      some (none, some rPage1, some (RestErr.transport 7)) ∧ rPage1 ≠ rF2 := by
  constructor <;> decide

/-- C4 amended: when a follow-up page fetch fails, the response object
returned alongside the error is the FIRST page's response (the original
request's), regardless of how many follow-up pages succeeded before the
failure — for both List and Get walks. -/
theorem walk_failure_returns_first_response (c : Client) (zn : String)
    (p1 : ZPage) (rest : List ZPage) (e : RestErr)
    (q1 : RPage) (qrest : List RPage) (e2 : RestErr) (fuel : Nat)
    (hfp : c.FollowPagination = true)
    (h1 : ListFirstPage c p1)
    (hfail : ServesZonesThenFails c p1.resp.linkNext rest e)
    (hfuel : rest.length < fuel)
    (hg1 : GetFirstPage c zn q1)
    (hgfail : ServesRecordsThenFails c q1.resp.linkNext qrest e2)
    (hgfuel : qrest.length < fuel) :
    (ZonesService.List c fuel).map (fun out => out.2.1) = some (some p1.resp) ∧
    (ZonesService.Get c fuel zn).map (fun out => out.2.1) = some (some q1.resp) := by
  obtain ⟨hreq, hdo⟩ := h1
  obtain ⟨hgreq, hgdo⟩ := hg1
  have hw := listWalk_fails c rest e fuel p1.zones p1.resp.linkNext hfail hfuel
  have hgw := recordsWalk_fails c qrest e2 fuel q1.zone q1.resp.linkNext hgfail hgfuel
  constructor
  · simp only [ZonesService.List, hreq, hdo, hfp, if_true, hw]
    rfl
  · simp only [ZonesService.Get, hgreq, hgdo, hfp, if_true, hgw]
    rfl

/-- Witness for walk_failure_returns_first_response: on cFail both walks
fail at page 3 and both return page 1's response rPage1. -/
theorem walk_failure_returns_first_response_witness :
    (ZonesService.List cFail 5).map (fun out => out.2.1) = some (some zp1.resp) ∧
    (ZonesService.Get cFail 5 "example.com").map (fun out => out.2.1) =
      some (some rp1.resp) :=
  walk_failure_returns_first_response cFail "example.com" zp1 [zpF2]
    (RestErr.transport 7) ⟨rp1.zone, rPage1⟩ [rpF2] (RestErr.transport 7) 5 rfl
    ⟨rfl, rfl⟩ ⟨by decide, rfl, rfl, by decide, Or.inr ⟨rfl, ⟨some ⟨"", 3⟩, rfl⟩⟩⟩
    (by decide)
    ⟨rfl, rfl⟩ ⟨by decide, rfl, rfl, by decide, Or.inr ⟨rfl, ⟨some ⟨"", 3⟩, rfl⟩⟩⟩
    (by decide)

/-- C5 counterexample: on cOk the walk encounters rPage1 and then
rPage2 (the final page's response), but List returns rPage1, not the
last response encountered. -/
theorem list_success_last_response_cx :
    ZonesService.List cOk 5 = some (some [zA, zB, zC], some rPage1, none) ∧
    rPage1 ≠ rPage2 := by
  constructor <;> decide

/-- C5 amended: for every successful List call (pagination enabled,
N ≥ 1 pages all succeeding), the HTTP response object returned is the
FIRST page's response (the initial request's), together with the full
list (present) and no error. -/
theorem list_success_returns_first_response (c : Client) (p1 : ZPage)
    (rest : List ZPage) (fuel : Nat) (hfp : c.FollowPagination = true)
    (h1 : ListFirstPage c p1)
    (hrest : ServesZonesFrom c p1.resp.linkNext rest)
    (hfuel : rest.length ≤ fuel) :
    (ZonesService.List c fuel).map (fun out => out.2.1) = some (some p1.resp) ∧
    (ZonesService.List c fuel).map (fun out => out.1.isSome) = some true ∧
    (ZonesService.List c fuel).map (fun out => out.2.2) = some none := by
  obtain ⟨hreq, hdo⟩ := h1
  have hw := listWalk_serves c rest fuel p1.zones p1.resp.linkNext hrest hfuel
  refine ⟨?_, ?_, ?_⟩ <;>
    (simp only [ZonesService.List, hreq, hdo, hfp, if_true, hw]; rfl)

/-- Witness for list_success_returns_first_response on the concrete
client cOk. -/
theorem list_success_returns_first_response_witness :
    (ZonesService.List cOk 5).map (fun out => out.2.1) = some (some zp1.resp) ∧
    (ZonesService.List cOk 5).map (fun out => out.1.isSome) = some true ∧
    (ZonesService.List cOk 5).map (fun out => out.2.2) = some none :=
  list_success_returns_first_response cOk zp1 [zp2] 5 rfl ⟨rfl, rfl⟩
    ⟨by decide, rfl, rfl, rfl⟩ (by decide)

/-- A client for the sentinel-with-response scenarios: PUT fails with
"zone already exists", other zone requests with "zone not found", each
with a distinct response object present. -/
def cSentinels : Client where
  FollowPagination := true
  newRequestErr := fun _ => none
  doZoneList := fun _ => DoRes.fail (some ⟨"", 9⟩) (RestErr.transport 99)
  doZone := fun req =>
    if req.method = "PUT" then
      DoRes.fail (some ⟨"", 21⟩) (RestErr.structured "zone already exists")
    else DoRes.fail (some ⟨"", 22⟩) (RestErr.structured "zone not found")
  doEmpty := fun _ => DoRes.fail (some ⟨"", 23⟩) (RestErr.structured "zone not found")

/-- C6: with the follow-pagination flag disabled, List and Get return
exactly the first page's data and response. Nothing restricts the first
response's continuation pointer, so this holds even when it is
nonempty; the conclusion is determined by the initial request alone, so
no follow-up request is consulted. -/
theorem no_follow_first_page_only (c : Client) (fuel : Nat) (zn : String)
    (zl : List Zone) (resp : Response) (z : Zone) (rz : Response)
    (hfp : c.FollowPagination = false)
    (hreq : c.newRequestErr ⟨"GET", "zones", none⟩ = none)
    (hdo : c.doZoneList ⟨"GET", "zones", none⟩ = DoRes.ok zl resp)
    (hreq2 : c.newRequestErr ⟨"GET", "zones/" ++ zn, none⟩ = none)
    (hdo2 : c.doZone ⟨"GET", "zones/" ++ zn, none⟩ = DoRes.ok z rz) :
    ZonesService.List c fuel = some (some zl, some resp, none) ∧
    ZonesService.Get c fuel zn = some (some z, some rz, none) := by
  constructor
  · simp [ZonesService.List, hreq, hdo, hfp]
  · simp [ZonesService.Get, hreq2, hdo2, hfp]

/-- Witness for no_follow_first_page_only: cNoFollow's first responses
carry the nonempty continuation pointer "page2", yet only the first
page's data is returned. -/
theorem no_follow_first_page_only_witness :
    (ZonesService.List cNoFollow 5 = some (some [zA, zB], some rPage1, none) ∧
     ZonesService.Get cNoFollow 5 "example.com" =
       some (some rp1.zone, some rPage1, none)) ∧
    rPage1.linkNext ≠ "" :=
  ⟨no_follow_first_page_only cNoFollow 5 "example.com" [zA, zB] rPage1
     rp1.zone rPage1 rfl rfl rfl rfl rfl, by decide⟩

/-- C7: Create maps a structured "zone already exists" failure to the
identity-comparable ErrZoneExists sentinel (distinct from the structured
error of the same message), passes every other failure through
unchanged, and the classification is Create's alone — List, Get, Update
and Delete pass a structured "zone already exists" failure through
unchanged. -/
theorem create_classifies_zone_exists
    (cA cB cC cD : Client) (z : Zone) (zn : String) (fuel : Nat)
    (rA rB rC rD1 rD2 rD3 rD4 : Option Response) (msg : String) (code : Nat)
    (hmsg : msg ≠ "zone already exists")
    (hA1 : cA.newRequestErr ⟨"PUT", "zones/" ++ z.zone, some z⟩ = none)
    (hA2 : cA.doZone ⟨"PUT", "zones/" ++ z.zone, some z⟩ =
      DoRes.fail rA (RestErr.structured "zone already exists"))
    (hB1 : cB.newRequestErr ⟨"PUT", "zones/" ++ z.zone, some z⟩ = none)
    (hB2 : cB.doZone ⟨"PUT", "zones/" ++ z.zone, some z⟩ =
      DoRes.fail rB (RestErr.structured msg))
    (hC1 : cC.newRequestErr ⟨"PUT", "zones/" ++ z.zone, some z⟩ = none)
    (hC2 : cC.doZone ⟨"PUT", "zones/" ++ z.zone, some z⟩ =
      DoRes.fail rC (RestErr.transport code))
    (hD0 : cD.newRequestErr ⟨"GET", "zones", none⟩ = none)
    (hD1 : cD.doZoneList ⟨"GET", "zones", none⟩ =
      DoRes.fail rD1 (RestErr.structured "zone already exists"))
    (hD2 : cD.newRequestErr ⟨"GET", "zones/" ++ zn, none⟩ = none)
    (hD3 : cD.doZone ⟨"GET", "zones/" ++ zn, none⟩ =
      DoRes.fail rD2 (RestErr.structured "zone already exists"))
    (hD4 : cD.newRequestErr ⟨"POST", "zones/" ++ z.zone, some z⟩ = none)
    (hD5 : cD.doZone ⟨"POST", "zones/" ++ z.zone, some z⟩ =
      DoRes.fail rD3 (RestErr.structured "zone already exists"))
    (hD6 : cD.newRequestErr ⟨"DELETE", "zones/" ++ zn, none⟩ = none)
    (hD7 : cD.doEmpty ⟨"DELETE", "zones/" ++ zn, none⟩ =
      DoRes.fail rD4 (RestErr.structured "zone already exists")) :
    ZonesService.Create cA z = (rA, some ErrZoneExists) ∧
    ZonesService.Create cB z = (rB, some (RestErr.structured msg)) ∧
    ZonesService.Create cC z = (rC, some (RestErr.transport code)) ∧
    ErrZoneExists ≠ RestErr.structured "zone already exists" ∧
    ZonesService.List cD fuel =
      some (none, rD1, some (RestErr.structured "zone already exists")) ∧
    ZonesService.Get cD fuel zn =
      some (none, rD2, some (RestErr.structured "zone already exists")) ∧
    ZonesService.Update cD z =
      (rD3, some (RestErr.structured "zone already exists")) ∧
    ZonesService.Delete cD zn =
      (rD4, some (RestErr.structured "zone already exists")) := by
  refine ⟨?_, ?_, ?_, by decide, ?_, ?_, ?_, ?_⟩
  · simp [ZonesService.Create, hA1, hA2]
  · simp [ZonesService.Create, hB1, hB2, hmsg]
  · simp [ZonesService.Create, hC1, hC2]
  · simp [ZonesService.List, hD0, hD1]
  · simp [ZonesService.Get, hD2, hD3]
  · simp [ZonesService.Update, hD4, hD5]
  · simp [ZonesService.Delete, hD6, hD7]

/-- Witness for create_classifies_zone_exists on concrete clients built
with cFailWith. -/
theorem create_classifies_zone_exists_witness :
    ZonesService.Create (cFailWith (RestErr.structured "zone already exists")) zA =
      (some ⟨"", 9⟩, some ErrZoneExists) ∧
    ZonesService.Create (cFailWith (RestErr.structured "boom")) zA =
      (some ⟨"", 9⟩, some (RestErr.structured "boom")) ∧
    ZonesService.Create (cFailWith (RestErr.transport 3)) zA =
      (some ⟨"", 9⟩, some (RestErr.transport 3)) ∧
    ErrZoneExists ≠ RestErr.structured "zone already exists" ∧
    ZonesService.List (cFailWith (RestErr.structured "zone already exists")) 0 =
      some (none, some ⟨"", 9⟩, some (RestErr.structured "zone already exists")) ∧
    ZonesService.Get (cFailWith (RestErr.structured "zone already exists")) 0 "n" =
      some (none, some ⟨"", 9⟩, some (RestErr.structured "zone already exists")) ∧
    ZonesService.Update (cFailWith (RestErr.structured "zone already exists")) zA =
      (some ⟨"", 9⟩, some (RestErr.structured "zone already exists")) ∧
    ZonesService.Delete (cFailWith (RestErr.structured "zone already exists")) "n" =
      (some ⟨"", 9⟩, some (RestErr.structured "zone already exists")) :=
  create_classifies_zone_exists
    (cFailWith (RestErr.structured "zone already exists"))
    (cFailWith (RestErr.structured "boom"))
    (cFailWith (RestErr.transport 3))
    (cFailWith (RestErr.structured "zone already exists"))
    zA "n" 0 (some ⟨"", 9⟩) (some ⟨"", 9⟩) (some ⟨"", 9⟩) (some ⟨"", 9⟩)
    (some ⟨"", 9⟩) (some ⟨"", 9⟩) (some ⟨"", 9⟩) "boom" 3 (by decide)
    rfl rfl rfl rfl rfl rfl rfl rfl rfl rfl rfl rfl rfl rfl

/-- C8: Get, Update and Delete map a structured "zone not found" failure
to the same identity-comparable ErrZoneMissing sentinel, and pass every
other failing error value through unchanged. -/
theorem gud_classify_zone_not_found
    (cA cB : Client) (z : Zone) (zn : String) (fuel : Nat)
    (r1 r2 r3 s1 s2 s3 : Option Response) (e : RestErr)
    (he : e ≠ RestErr.structured "zone not found")
    (hA1 : cA.newRequestErr ⟨"GET", "zones/" ++ zn, none⟩ = none)
    (hA2 : cA.doZone ⟨"GET", "zones/" ++ zn, none⟩ =
      DoRes.fail r1 (RestErr.structured "zone not found"))
    (hA3 : cA.newRequestErr ⟨"POST", "zones/" ++ z.zone, some z⟩ = none)
    (hA4 : cA.doZone ⟨"POST", "zones/" ++ z.zone, some z⟩ =
      DoRes.fail r2 (RestErr.structured "zone not found"))
    (hA5 : cA.newRequestErr ⟨"DELETE", "zones/" ++ zn, none⟩ = none)
    (hA6 : cA.doEmpty ⟨"DELETE", "zones/" ++ zn, none⟩ =
      DoRes.fail r3 (RestErr.structured "zone not found"))
    (hB1 : cB.newRequestErr ⟨"GET", "zones/" ++ zn, none⟩ = none)
    (hB2 : cB.doZone ⟨"GET", "zones/" ++ zn, none⟩ = DoRes.fail s1 e)
    (hB3 : cB.newRequestErr ⟨"POST", "zones/" ++ z.zone, some z⟩ = none)
    (hB4 : cB.doZone ⟨"POST", "zones/" ++ z.zone, some z⟩ = DoRes.fail s2 e)
    (hB5 : cB.newRequestErr ⟨"DELETE", "zones/" ++ zn, none⟩ = none)
    (hB6 : cB.doEmpty ⟨"DELETE", "zones/" ++ zn, none⟩ = DoRes.fail s3 e) :
    ZonesService.Get cA fuel zn = some (none, r1, some ErrZoneMissing) ∧
    ZonesService.Update cA z = (r2, some ErrZoneMissing) ∧
    ZonesService.Delete cA zn = (r3, some ErrZoneMissing) ∧
    ZonesService.Get cB fuel zn = some (none, s1, some e) ∧
    ZonesService.Update cB z = (s2, some e) ∧
    ZonesService.Delete cB zn = (s3, some e) := by
  have hm : ∀ m : String, e = RestErr.structured m → m ≠ "zone not found" := by
    intro m hem hcontra
    exact he (by rw [hem, hcontra])
  refine ⟨?_, ?_, ?_, ?_, ?_, ?_⟩
  · simp [ZonesService.Get, hA1, hA2]
  · simp [ZonesService.Update, hA3, hA4]
  · simp [ZonesService.Delete, hA5, hA6]
  · rcases e with m | code | m
    · simp [ZonesService.Get, hB1, hB2, hm m rfl]
    · simp [ZonesService.Get, hB1, hB2]
    · simp [ZonesService.Get, hB1, hB2]
  · rcases e with m | code | m
    · simp [ZonesService.Update, hB3, hB4, hm m rfl]
    · simp [ZonesService.Update, hB3, hB4]
    · simp [ZonesService.Update, hB3, hB4]
  · rcases e with m | code | m
    · simp [ZonesService.Delete, hB5, hB6, hm m rfl]
    · simp [ZonesService.Delete, hB5, hB6]
    · simp [ZonesService.Delete, hB5, hB6]

/-- Witness for gud_classify_zone_not_found: a client failing with
structured "zone not found" yields ErrZoneMissing from all three
operations; one failing with transport error 3 passes it through. -/
theorem gud_classify_zone_not_found_witness :
    ZonesService.Get (cFailWith (RestErr.structured "zone not found")) 0 "n" =
      some (none, some ⟨"", 9⟩, some ErrZoneMissing) ∧
    ZonesService.Update (cFailWith (RestErr.structured "zone not found")) zA =
      (some ⟨"", 9⟩, some ErrZoneMissing) ∧
    ZonesService.Delete (cFailWith (RestErr.structured "zone not found")) "n" =
      (some ⟨"", 9⟩, some ErrZoneMissing) ∧
    ZonesService.Get (cFailWith (RestErr.transport 3)) 0 "n" =
      some (none, some ⟨"", 9⟩, some (RestErr.transport 3)) ∧
    ZonesService.Update (cFailWith (RestErr.transport 3)) zA =
      (some ⟨"", 9⟩, some (RestErr.transport 3)) ∧
    ZonesService.Delete (cFailWith (RestErr.transport 3)) "n" =
      (some ⟨"", 9⟩, some (RestErr.transport 3)) :=
  gud_classify_zone_not_found
    (cFailWith (RestErr.structured "zone not found"))
    (cFailWith (RestErr.transport 3)) zA "n" 0
    (some ⟨"", 9⟩) (some ⟨"", 9⟩) (some ⟨"", 9⟩)
    (some ⟨"", 9⟩) (some ⟨"", 9⟩) (some ⟨"", 9⟩)
    (RestErr.transport 3) (by decide)
    rfl rfl rfl rfl rfl rfl rfl rfl rfl rfl rfl rfl

/-- C9: when request construction fails, each of the five operations
returns that construction error with no HTTP response object, and the
transport executor is never invoked: the outcome is unchanged under
arbitrary replacement of all three executor functions. -/
theorem construction_failure_immediate
    (c : Client) (z : Zone) (zn : String) (fuel : Nat)
    (e1 e2 e3 e4 e5 : RestErr)
    (h1 : c.newRequestErr ⟨"GET", "zones", none⟩ = some e1)
    (h2 : c.newRequestErr ⟨"GET", "zones/" ++ zn, none⟩ = some e2)
    (h3 : c.newRequestErr ⟨"PUT", "zones/" ++ z.zone, some z⟩ = some e3)
    (h4 : c.newRequestErr ⟨"POST", "zones/" ++ z.zone, some z⟩ = some e4)
    (h5 : c.newRequestErr ⟨"DELETE", "zones/" ++ zn, none⟩ = some e5) :
    ZonesService.List c fuel = some (none, none, some e1) ∧
    ZonesService.Get c fuel zn = some (none, none, some e2) ∧
    ZonesService.Create c z = (none, some e3) ∧
    ZonesService.Update c z = (none, some e4) ∧
    ZonesService.Delete c zn = (none, some e5) ∧
    ∀ dzl dz de,
      ZonesService.List
          { c with doZoneList := dzl, doZone := dz, doEmpty := de } fuel =
        ZonesService.List c fuel ∧
      ZonesService.Get
          { c with doZoneList := dzl, doZone := dz, doEmpty := de } fuel zn =
        ZonesService.Get c fuel zn ∧
      ZonesService.Create
          { c with doZoneList := dzl, doZone := dz, doEmpty := de } z =
        ZonesService.Create c z ∧
      ZonesService.Update
          { c with doZoneList := dzl, doZone := dz, doEmpty := de } z =
        ZonesService.Update c z ∧
      ZonesService.Delete
          { c with doZoneList := dzl, doZone := dz, doEmpty := de } zn =
        ZonesService.Delete c zn := by
  have hl : ZonesService.List c fuel = some (none, none, some e1) := by
    simp [ZonesService.List, h1]
  have hg : ZonesService.Get c fuel zn = some (none, none, some e2) := by
    simp [ZonesService.Get, h2]
  have hc : ZonesService.Create c z = (none, some e3) := by
    simp [ZonesService.Create, h3]
  have hu : ZonesService.Update c z = (none, some e4) := by
    simp [ZonesService.Update, h4]
  have hd : ZonesService.Delete c zn = (none, some e5) := by
    simp [ZonesService.Delete, h5]
  refine ⟨hl, hg, hc, hu, hd, fun dzl dz de => ⟨?_, ?_, ?_, ?_, ?_⟩⟩
  · rw [hl]; simp [ZonesService.List, h1]
  · rw [hg]; simp [ZonesService.Get, h2]
  · rw [hc]; simp [ZonesService.Create, h3]
  · rw [hu]; simp [ZonesService.Update, h4]
  · rw [hd]; simp [ZonesService.Delete, h5]

/-- Witness for construction_failure_immediate: cBadReq's builder always
fails with transport error 42; every operation surfaces it with no
response, and swapping in cOk's executors changes nothing. -/
theorem construction_failure_immediate_witness :
    (ZonesService.List cBadReq 0 =
        some (none, none, some (RestErr.transport 42)) ∧
      ZonesService.Get cBadReq 0 "n" =
        some (none, none, some (RestErr.transport 42)) ∧
      ZonesService.Create cBadReq zA = (none, some (RestErr.transport 42)) ∧
      ZonesService.Update cBadReq zA = (none, some (RestErr.transport 42)) ∧
      ZonesService.Delete cBadReq "n" = (none, some (RestErr.transport 42))) ∧
    ZonesService.List
        { cBadReq with
          doZoneList := cOk.doZoneList
          doZone := cOk.doZone
          doEmpty := cOk.doEmpty } 0 =
      ZonesService.List cBadReq 0 := by
  have h := construction_failure_immediate cBadReq zA "n" 0
    (RestErr.transport 42) (RestErr.transport 42) (RestErr.transport 42)
    (RestErr.transport 42) (RestErr.transport 42) rfl rfl rfl rfl rfl
  exact ⟨⟨h.1, h.2.1, h.2.2.1, h.2.2.2.1, h.2.2.2.2.1⟩,
    (h.2.2.2.2.2 cOk.doZoneList cOk.doZone cOk.doEmpty).1⟩

/-- C10: whenever Get, Create, Update or Delete returns a sentinel error,
the failed call's response object is returned alongside it rather than
discarded, and the data result (the Zone, for Get) is nil. -/
theorem sentinel_keeps_response
    (c : Client) (z : Zone) (zn : String) (fuel : Nat)
    (r1 r2 r3 r4 : Response)
    (h1 : c.newRequestErr ⟨"GET", "zones/" ++ zn, none⟩ = none)
    (h2 : c.doZone ⟨"GET", "zones/" ++ zn, none⟩ =
      DoRes.fail (some r1) (RestErr.structured "zone not found"))
    (h3 : c.newRequestErr ⟨"PUT", "zones/" ++ z.zone, some z⟩ = none)
    (h4 : c.doZone ⟨"PUT", "zones/" ++ z.zone, some z⟩ =
      DoRes.fail (some r2) (RestErr.structured "zone already exists"))
    (h5 : c.newRequestErr ⟨"POST", "zones/" ++ z.zone, some z⟩ = none)
    (h6 : c.doZone ⟨"POST", "zones/" ++ z.zone, some z⟩ =
      DoRes.fail (some r3) (RestErr.structured "zone not found"))
    (h7 : c.newRequestErr ⟨"DELETE", "zones/" ++ zn, none⟩ = none)
    (h8 : c.doEmpty ⟨"DELETE", "zones/" ++ zn, none⟩ =
      DoRes.fail (some r4) (RestErr.structured "zone not found")) :
    ZonesService.Get c fuel zn = some (none, some r1, some ErrZoneMissing) ∧
    ZonesService.Create c z = (some r2, some ErrZoneExists) ∧
    ZonesService.Update c z = (some r3, some ErrZoneMissing) ∧
    ZonesService.Delete c zn = (some r4, some ErrZoneMissing) := by
  refine ⟨?_, ?_, ?_, ?_⟩
  · simp [ZonesService.Get, h1, h2]
  · simp [ZonesService.Create, h3, h4]
  · simp [ZonesService.Update, h5, h6]
  · simp [ZonesService.Delete, h7, h8]

/-- Witness for sentinel_keeps_response on the concrete client
cSentinels, whose failing calls carry distinct response objects. -/
theorem sentinel_keeps_response_witness :
    ZonesService.Get cSentinels 0 "n" =
      some (none, some ⟨"", 22⟩, some ErrZoneMissing) ∧
    ZonesService.Create cSentinels zA = (some ⟨"", 21⟩, some ErrZoneExists) ∧
    ZonesService.Update cSentinels zA = (some ⟨"", 22⟩, some ErrZoneMissing) ∧
    ZonesService.Delete cSentinels "n" = (some ⟨"", 23⟩, some ErrZoneMissing) :=
  sentinel_keeps_response cSentinels zA "n" 0 ⟨"", 22⟩ ⟨"", 21⟩ ⟨"", 22⟩ ⟨"", 23⟩
    rfl rfl rfl rfl rfl rfl rfl rfl
